import Mathlib

/-!
Verification of the gopro-control backend core: BLE framing codec,
protobuf varint decoder, camera connection supervisor, multi-camera
shutter synchronizer, and the COHN provisioning state machine.

Definitions are shallow embeddings of `src/backend/cohn_manager.py` and
`src/backend/camera_manager.py` (plus the background polling guard of
`src/backend/main.py`).  Byte strings are `List Nat` of byte values;
dictionaries are association lists; external effects (BLE writes, the OS
ARP table, timers) are supplied as explicit oracle parameters.
-/

namespace GoProControl

/-! ## Association-list helpers (Python dict semantics) -/

/-- `d[k] = v`: replace the binding for `k`, or append it if absent. -/
def setA {α : Type} (u : String) (v : α) : List (String × α) → List (String × α)
  | [] => [(u, v)]
  | (k, w) :: t => if k = u then (u, v) :: t else (k, w) :: setA u v t

/-- `del d[k]`: drop the (unique) binding for `k`, keep everything else. -/
def eraseA {α : Type} (u : String) : List (String × α) → List (String × α)
  | [] => []
  | (k, w) :: t => if k = u then t else (k, w) :: eraseA u t

/-! ## Binary framing codec — `COHNManager._fragment_payload`
(`src/backend/cohn_manager.py` lines 180–227) -/

/-- `(n).to_bytes(2, "big")` for `n < 2^16`. -/
def toBytes2BE (n : Nat) : List Nat := [(n >>> 8) &&& 0xFF, n &&& 0xFF]

/-- Continuation packets of the fragmentation loop: header byte `0x80`
followed by up to 19 payload bytes (20-byte cap per packet). -/
def contPackets (l : List Nat) : List (List Nat) :=
  if l = [] then [] else (0x80 :: l.take 19) :: contPackets (l.drop 19)
termination_by l.length
decreasing_by
  rename_i h
  have : 0 < l.length :=
    Nat.pos_of_ne_zero (fun hl => h (List.eq_nil_of_length_eq_zero hl))
  simp [List.length_drop]
  omega

/-- `COHNManager._fragment_payload`: split a payload into ≤20-byte BLE
packets.  Empty payload → `[0x00]`; ≤18 bytes → `[len] ++ payload`;
otherwise a 2-byte first header (`length | 0x2000` below `2^13 - 1`,
else `length | 0x6000` below `2^16 - 1`) followed by 18 payload bytes,
then `0x80`-headed continuation packets of 19 bytes each. -/
def fragmentPayload (payload : List Nat) : Except String (List (List Nat)) :=
  let length := payload.length
  if length = 0 then .ok [[0x00]]
  else if length ≤ 18 then .ok [length :: payload]
  else if length < 2 ^ 13 - 1 then
    .ok ((toBytes2BE (length ||| 0x2000) ++ payload.take 18) :: contPackets (payload.drop 18))
  else if length < 2 ^ 16 - 1 then
    .ok ((toBytes2BE (length ||| 0x6000) ++ payload.take 18) :: contPackets (payload.drop 18))
  else .error "Payload too large"

/-! ## Notification decode — `COHNManager._notification_handler`
(`src/backend/cohn_manager.py` lines 279–380) -/

/-- Per-characteristic reassembly buffers (`_reassembly_buffers`:
uuid ↦ (total_len, data)) and delivery queues (`_notification_data`:
uuid ↦ payloads delivered in order). -/
structure NotifState where
  buffers : List (String × (Nat × List Nat))
  queues : List (String × List (List Nat))
deriving Repr, DecidableEq

/-- `queue = self._notification_data.get(uuid); if queue: queue.put_nowait(p)` —
append to the characteristic's queue only when one is registered. -/
def enqueueIfPresent (u : String) (payload : List Nat)
    (qs : List (String × List (List Nat))) : List (String × List (List Nat)) :=
  match List.lookup u qs with
  | some q => setA u (q ++ [payload]) qs
  | none => qs

/-- One invocation of the per-characteristic notification handler on a raw
BLE packet.  Bit 7 of the header = continuation; bits 6+5 = extended
first-of-multi (16-bit length in bytes 1–2, payload from byte 3); bit 5
alone = first-of-multi (13-bit length, payload from byte 2); otherwise a
single packet with length in the low 5 bits. -/
def notifHandler (uuid : String) (raw : List Nat) (st : NotifState) : NotifState :=
  match raw with
  | [] => st
  | header :: rest =>
    if header &&& 0x80 ≠ 0 then
      -- continuation packet
      match List.lookup uuid st.buffers with
      | none => st         -- "Continuation without start, ignoring"
      | some (totalLen, data) =>
        let data1 := data ++ rest
        if totalLen ≤ data1.length then
          { buffers := eraseA uuid st.buffers,
            queues := enqueueIfPresent uuid (data1.take totalLen) st.queues }
        else { st with buffers := setA uuid (totalLen, data1) st.buffers }
    else if header &&& 0x60 = 0x60 then
      -- extended first-of-multi: 16-bit length in bytes 1-2
      match rest with
      | b1 :: b2 :: frag =>
        let totalLen := (b1 <<< 8) ||| b2
        if totalLen ≤ frag.length then
          { buffers := eraseA uuid (setA uuid (totalLen, frag) st.buffers),
            queues := enqueueIfPresent uuid (frag.take totalLen) st.queues }
        else { st with buffers := setA uuid (totalLen, frag) st.buffers }
      | _ => st            -- "Extended first-of-multi too short"
    else if header &&& 0x20 ≠ 0 then
      -- first-of-multi: 13-bit length in header + byte 1
      match rest with
      | b1 :: frag =>
        let totalLen := ((header &&& 0x1F) <<< 8) ||| b1
        if totalLen ≤ frag.length then
          { buffers := eraseA uuid (setA uuid (totalLen, frag) st.buffers),
            queues := enqueueIfPresent uuid (frag.take totalLen) st.queues }
        else { st with buffers := setA uuid (totalLen, frag) st.buffers }
      | [] => st           -- "First-of-multi too short"
    else
      -- single packet: length in bits [4:0]
      let payloadLen := header &&& 0x1F
      { st with queues := enqueueIfPresent uuid (rest.take payloadLen) st.queues }

/-- Feed a sequence of raw packets, in order, into one characteristic's
notification handler. -/
def processFrames (uuid : String) (frames : List (List Nat)) (st : NotifState) : NotifState :=
  frames.foldl (fun s f => notifHandler uuid f s) st

/-! ## Protobuf varint decoder — `COHNManager._decode_varint`
(`src/backend/cohn_manager.py` lines 107–122) -/

/-- The two `ValueError`s of `_decode_varint`, each carrying the offset
reported in the exception message. -/
inductive VarintErr where
  | tooLong (offset : Nat)
  | truncated (offset : Nat)
deriving Repr, DecidableEq

/-- The `while offset < len(data)` loop of `_decode_varint`: iterate over
the bytes from `offset` (`rem = data[offset:]`), threading the Python
`offset`, `result` and `shift` variables explicitly.  An empty remainder
is the loop falling through to `raise ValueError("Truncated ...")`. -/
def decodeVarintGo (rem : List Nat) (offset result shift : Nat) :
    Except VarintErr (Nat × Nat) :=
  match rem with
  | [] => .error (.truncated offset)
  | byte :: rest =>
    let result1 := result ||| ((byte &&& 0x7F) <<< shift)
    if byte &&& 0x80 = 0 then .ok (result1, offset + 1)
    else if shift + 7 > 63 then .error (.tooLong (offset + 1))
    else decodeVarintGo rest (offset + 1) result1 (shift + 7)

/-- `COHNManager._decode_varint`: decode a base-128 varint starting at
`offset`; return `(value, new_offset)` or raise. -/
def decodeVarint (data : List Nat) (offset : Nat := 0) : Except VarintErr (Nat × Nat) :=
  decodeVarintGo (data.drop offset) offset 0 0

/-- Length of the maximal prefix of bytes with the continuation bit
(bit 7) set. -/
def contRunGo : List Nat → Nat
  | [] => 0
  | b :: rest => if b &&& 0x80 ≠ 0 then contRunGo rest + 1 else 0

/-- Number of consecutive bytes from `offset` that have the continuation
bit set. -/
def contRun (data : List Nat) (offset : Nat) : Nat := contRunGo (data.drop offset)

/-! ## Camera connection supervisor — `src/backend/camera_manager.py` -/

/-- The underlying Bleak client: only its radio-level `is_connected` flag
matters here. -/
structure BleakH where
  is_connected : Bool
deriving Repr, DecidableEq

/-- The open_gopro handle: `_ble._handle` is the Bleak client, `None`
after teardown. -/
structure GoproH where
  handle : Option BleakH
deriving Repr, DecidableEq

/-- `GoPro.is_ble_connected` only checks that `_handle is not None`
(noted at `camera_manager.py` line 590). -/
def isBleConnected (g : GoproH) : Bool := g.handle.isSome

/-- `CameraInstance`: the per-camera session state the claims are about. -/
structure Camera where
  gopro : Option GoproH
  connected : Bool
  recording : Bool
  recordingStartTime : Option Nat
deriving Repr, DecidableEq

/-- The `not self.connected or not self.gopro or not self.gopro.is_ble_connected`
guard that begins every camera operation. -/
def passesConnCheck (c : Camera) : Bool :=
  c.connected && (match c.gopro with
    | some g => isBleConnected g
    | none => false)

/-- `CameraInstance.update_connection_status` (lines 582–613): returns the
derived connection flag and the updated session.  A handle whose Bleak
client reports disconnected is a stale handle: tear it down and clear
`connected` and `recording`. -/
def updateConnectionStatus (cam : Camera) : Bool × Camera :=
  match cam.gopro with
  | some g =>
    if isBleConnected g then
      match g.handle with
      | some b =>
        if b.is_connected = false then
          (false, { cam with gopro := some { g with handle := none },
                             connected := false, recording := false })
        else (true, { cam with connected := true })
      | none => (true, { cam with connected := true })
    else (false, { cam with connected := false })
  | none => (false, { cam with connected := false })

/-- `CameraInstance._fire_shutter_raw` (lines 164–194): raw fire-and-forget
BLE shutter write.  `writeOk` is the oracle for whether the raw GATT write
raises; on success `recording` is set optimistically. -/
def fireShutterRaw (cam : Camera) (writeOk : Bool) (shutterOn : Bool) : Bool × Camera :=
  if ¬passesConnCheck cam then (false, cam)
  else if writeOk then (true, { cam with recording := shutterOn })
  else (false, cam)

/-- Outcome of one `set_shutter` attempt run through `_ble_cmd_in_thread`:
clean return, thread-join timeout (`err == "timeout"`), or an error/raise. -/
inductive AttemptOutcome where
  | ok
  | timeout
  | raised
deriving Repr, DecidableEq

/-- `CameraInstance.stop_recording` (lines 249–295): re-derive connection
status, bail out if not connected, then up to two stop attempts.  A clean
or timed-out attempt succeeds; after two raising attempts (or the outer
handler) the session is still marked not-recording. -/
def stopRecording (cam : Camera) (a1 a2 : AttemptOutcome) : Bool × Camera :=
  let cam1 := (updateConnectionStatus cam).2
  if ¬passesConnCheck cam1 then (false, cam1)
  else
    match a1 with
    | .ok => (true, { cam1 with recording := false, recordingStartTime := none })
    | .timeout => (true, { cam1 with recording := false, recordingStartTime := none })
    | .raised =>
      match a2 with
      | .ok => (true, { cam1 with recording := false, recordingStartTime := none })
      | .timeout => (true, { cam1 with recording := false, recordingStartTime := none })
      | .raised => (false, { cam1 with recording := false, recordingStartTime := none })

/-- Outcome of the `keep_alive` round-trip inside `probe_ble_alive`. -/
inductive ProbeOutcome where
  | ok
  | err
  | exn
deriving Repr, DecidableEq

/-- `CameraInstance.probe_ble_alive` (lines 615–635): lightweight advisory
keep-alive probe.  Returns the probe verdict and the (untouched) session. -/
def probeBleAlive (cam : Camera) (o : ProbeOutcome) : Bool × Camera :=
  if cam.gopro.isNone ∨ ¬cam.connected then (false, cam)
  else
    match o with
    | .ok => (true, cam)
    | .err => (false, cam)
    | .exn => (false, cam)

/-- `CameraManager`: the camera registry plus the process-wide `ble_busy`
flag (`camera_manager.py` lines 650–653; the flag is only ever assigned in
`__init__`). -/
structure Manager where
  cameras : List (String × Camera)
  bleBusy : Bool
deriving Repr, DecidableEq

/-- The snapshot `{s: c for s, c in self.cameras.items() if c.connected}`
taken at the start of a shutter batch. -/
def connectedCams (mgr : Manager) : List (String × Camera) :=
  mgr.cameras.filter (fun p => p.2.connected)

/-- The loop body of `start_recording_all` / `stop_recording_all`: fire the
raw shutter at each connected camera in order, collecting per-serial
results.  Also returns the trace of manager states after each write, to
express what holds while the batch is in flight. -/
def shutterAllGo (writeOk : String → Bool) (shutterOn : Bool) :
    List (String × Camera) → Manager → List (String × Bool) × Manager × List Manager
  | [], mgr => ([], mgr, [])
  | (s, c) :: rest, mgr =>
    let r := fireShutterRaw c (writeOk s) shutterOn
    let mgr1 := { mgr with cameras := setA s r.2 mgr.cameras }
    let rec1 := shutterAllGo writeOk shutterOn rest mgr1
    ((s, r.1) :: rec1.1, rec1.2.1, mgr1 :: rec1.2.2)

/-- `CameraManager.start_recording_all` (lines 806–833). -/
def startRecordingAll (mgr : Manager) (writeOk : String → Bool) :
    List (String × Bool) × Manager × List Manager :=
  let conn := connectedCams mgr
  if conn.isEmpty then ([], mgr, [])
  else shutterAllGo writeOk true conn mgr

/-- `CameraManager.stop_recording_all` (lines 835–858). -/
def stopRecordingAll (mgr : Manager) (writeOk : String → Bool) :
    List (String × Bool) × Manager × List Manager :=
  let conn := connectedCams mgr
  if conn.isEmpty then ([], mgr, [])
  else shutterAllGo writeOk false conn mgr

/-- The background-polling guard of `main.py` line 229: a battery/health
polling cycle runs exactly when `ble_busy` is clear. -/
def pollingCycleRuns (mgr : Manager) : Bool := !mgr.bleBusy

/-! ## COHN provisioning — `COHNManager.provision_camera` /
`_provision_camera_inner` (`src/backend/cohn_manager.py` lines 416–884) -/

/-- The exception kinds a provisioning run can surface. -/
inductive PErrKind where
  | alreadyInProgress
  | timeout
  | deviceNotFound
  | connectFailed
  | subscribeFailed
  | createCertFailed
  | fetchCertFailed
  | fetchStatusFailed
  | noValidIp
  | disconnectFailed
deriving Repr, DecidableEq

/-- A provisioning failure, tagged with the step (1–15) during which it
was raised (0 for the fail-fast lock rejection that precedes step 1). -/
structure PErr where
  step : Nat
  kind : PErrKind
deriving Repr, DecidableEq

/-- One `COHNCredential` record as assembled at step 14. -/
structure Cred where
  ip : String
  username : String
  password : String
  certificate : String
  mac : String
deriving Repr, DecidableEq

/-- The persistent credential store, keyed by serial
(`COHNManager.credentials`). -/
def CredStore := List (String × Cred)
deriving instance DecidableEq for CredStore

/-- `'.' in ip` — the minimal IP sanity check before persisting. -/
def hasDot (s : String) : Bool := s.contains '.'

/-- Oracle for everything outside the provisioning control flow: each BLE
step's success/failure, the data the camera returns, the ARP fallback, and
the step at which the 300 s `asyncio.wait_for` deadline fires (cancelling
the run at that suspension point), if any. -/
structure ProvEnv where
  deadlineStep : Option Nat
  deviceFound : Bool
  connectOk : Bool
  subscribeOk : Bool
  createCertOk : Bool
  fetchCertOk : Bool
  certPem : Option String
  step8Ip : Option String
  fetchStatusOk : Bool
  statusUsername : Option String
  statusPassword : Option String
  statusIp : Option String
  statusMac : Option String
  arpIp : Option String
  disconnectOk : Bool
deriving Repr, DecidableEq

/-- The step-12 IP resolution chain: the status-response IP, falling back
to the IP discovered during step 8 (`if not ip_address and discovered_ip:
ip_address = discovered_ip`), then — only when there is still no IP
containing a dot — to an ARP candidate, which is taken only if it itself
contains a dot. -/
def resolveIp (env : ProvEnv) : String :=
  let ip0 := env.statusIp.getD ""
  let ip1 := if ip0 = "" ∧ env.step8Ip.getD "" ≠ "" then env.step8Ip.getD "" else ip0
  if ip1 = "" ∨ ¬hasDot ip1 then
    match env.arpIp with
    | some cand => if hasDot cand then cand else ip1
    | none => ip1
  else ip1

/-- The step-12 password fallback: an absent COHN password is replaced by
the documented placeholder `"gopro_cohn"`. -/
def resolvePassword (env : ProvEnv) : String :=
  if env.statusPassword.getD "" = "" then "gopro_cohn" else env.statusPassword.getD ""

/-- The credential record assembled between steps 12 and 14 (username
defaults to `"gopro"` when the status response carried none). -/
def assembleCred (env : ProvEnv) : Cred :=
  ⟨resolveIp env, env.statusUsername.getD "gopro", resolvePassword env,
   env.certPem.getD "", env.statusMac.getD ""⟩

/-- `_provision_camera_inner`: the 15-step sequential flow.  Returns the
outcome, the credential store after the run, and the highest step whose
`report()` was reached.  Steps 4–9 and 13 are best-effort (their failures
are caught and logged, so they carry no oracle bit); steps 1, 2, 3, 10,
11, 12 abort the run; the IP validation between steps 12 and 13 aborts;
the store is written at step 14 only; step 15's disconnect can still fail
after the write. -/
def runInner (env : ProvEnv) (serial : String) (store : CredStore) :
    Except PErr Cred × CredStore × Nat :=
  -- Step 1: BLE scan
  if env.deadlineStep = some 1 then (.error ⟨1, .timeout⟩, store, 1)
  else if ¬env.deviceFound then (.error ⟨1, .deviceNotFound⟩, store, 1)
  -- Step 2: connect
  else if env.deadlineStep = some 2 then (.error ⟨2, .timeout⟩, store, 2)
  else if ¬env.connectOk then (.error ⟨2, .connectFailed⟩, store, 2)
  -- Step 3: subscribe to notifications
  else if env.deadlineStep = some 3 then (.error ⟨3, .timeout⟩, store, 3)
  else if ¬env.subscribeOk then (.error ⟨3, .subscribeFailed⟩, store, 3)
  -- Step 4: set date/time (best-effort, failures swallowed)
  else if env.deadlineStep = some 4 then (.error ⟨4, .timeout⟩, store, 4)
  -- Step 5: WiFi scan (best-effort)
  else if env.deadlineStep = some 5 then (.error ⟨5, .timeout⟩, store, 5)
  -- Step 6: get scan results (best-effort)
  else if env.deadlineStep = some 6 then (.error ⟨6, .timeout⟩, store, 6)
  -- Step 7: connect camera to WiFi (all exceptions caught)
  else if env.deadlineStep = some 7 then (.error ⟨7, .timeout⟩, store, 7)
  -- Step 8: poll for network-connected state (never fatal)
  else if env.deadlineStep = some 8 then (.error ⟨8, .timeout⟩, store, 8)
  -- Step 9: clear old cert (best-effort)
  else if env.deadlineStep = some 9 then (.error ⟨9, .timeout⟩, store, 9)
  -- Step 10: create cert — failure IS fatal
  else if env.deadlineStep = some 10 then (.error ⟨10, .timeout⟩, store, 10)
  else if ¬env.createCertOk then (.error ⟨10, .createCertFailed⟩, store, 10)
  -- Step 11: fetch cert (unguarded `_write_and_wait` — fatal on failure)
  else if env.deadlineStep = some 11 then (.error ⟨11, .timeout⟩, store, 11)
  else if ¬env.fetchCertOk then (.error ⟨11, .fetchCertFailed⟩, store, 11)
  -- Step 12: fetch COHN status (unguarded — fatal on failure)
  else if env.deadlineStep = some 12 then (.error ⟨12, .timeout⟩, store, 12)
  else if ¬env.fetchStatusOk then (.error ⟨12, .fetchStatusFailed⟩, store, 12)
  -- validation before storing
  else if resolveIp env = "" ∨ ¬hasDot (resolveIp env) then
    (.error ⟨12, .noValidIp⟩, store, 12)
  -- Step 13: enable COHN (best-effort)
  else if env.deadlineStep = some 13 then (.error ⟨13, .timeout⟩, store, 13)
  -- Step 14: persist — the only store write
  else if env.deadlineStep = some 14 then (.error ⟨14, .timeout⟩, store, 14)
  -- Step 15: disconnect (only after the step-14 write of the store)
  else if env.deadlineStep = some 15 then
    (.error ⟨15, .timeout⟩, setA serial (assembleCred env) store, 15)
  else if ¬env.disconnectOk then
    (.error ⟨15, .disconnectFailed⟩, setA serial (assembleCred env) store, 15)
  else (.ok (assembleCred env), setA serial (assembleCred env) store, 15)

/-- `COHNManager.provision_camera` (lines 416–439): fail fast with
"already in progress" when the per-serial lock is held, otherwise run the
inner flow under the 300 s deadline.  `locks` is the set of serials whose
provisioning lock is currently held. -/
def provisionCamera (locks : List String) (env : ProvEnv) (serial : String)
    (store : CredStore) : Except PErr Cred × CredStore × Nat :=
  if serial ∈ locks then (.error ⟨0, .alreadyInProgress⟩, store, 0)
  else runInner env serial store

/-! ## Shared lemmas -/

/-- The result list of a shutter batch loop carries exactly the serials of
the camera list it was started with, in order. -/
theorem shutterAllGo_keys (writeOk : String → Bool) (shutterOn : Bool) :
    ∀ (l : List (String × Camera)) (mgr : Manager),
      (shutterAllGo writeOk shutterOn l mgr).1.map Prod.fst = l.map Prod.fst := by
  intro l
  induction l with
  | nil => intro mgr; simp [shutterAllGo]
  | cons p t ih => intro mgr; cases p; simp [shutterAllGo, ih]

/-- The shutter batch loop never touches the manager's `ble_busy` flag:
every intermediate state of the batch carries the flag it started with. -/
theorem shutterAllGo_bleBusy (writeOk : String → Bool) (shutterOn : Bool) :
    ∀ (l : List (String × Camera)) (mgr : Manager),
      (shutterAllGo writeOk shutterOn l mgr).2.1.bleBusy = mgr.bleBusy ∧
      ∀ m ∈ (shutterAllGo writeOk shutterOn l mgr).2.2, m.bleBusy = mgr.bleBusy := by
  intro l
  induction l with
  | nil => intro mgr; simp [shutterAllGo]
  | cons p t ih =>
    intro mgr; cases p
    simpa [shutterAllGo] using ih { mgr with cameras := _ }

/-! ## Claim theorems -/

/-- C2: the claim that `ble_busy` is `True` whenever a shutter batch is in
flight fails on the code: the flag is only ever assigned (to `False`) in
`CameraManager.__init__` and no code path sets it, so at every point
during a `start_recording_all` batch the background polling guard
(`main.py` line 229) still lets a polling cycle run.  Evaluated on a
manager with two connected cameras whose raw writes succeed. -/
theorem claim_C2_ble_busy_never_set_during_batch :
    (startRecordingAll ⟨[("4733", ⟨some ⟨some ⟨true⟩⟩, true, false, none⟩),
                         ("7092", ⟨some ⟨some ⟨true⟩⟩, true, false, none⟩)], false⟩
        (fun _ => true)).1 = [("4733", true), ("7092", true)] ∧
    (startRecordingAll ⟨[("4733", ⟨some ⟨some ⟨true⟩⟩, true, false, none⟩),
                         ("7092", ⟨some ⟨some ⟨true⟩⟩, true, false, none⟩)], false⟩
        (fun _ => true)).2.2 ≠ [] ∧
    ∀ m ∈ (startRecordingAll ⟨[("4733", ⟨some ⟨some ⟨true⟩⟩, true, false, none⟩),
                               ("7092", ⟨some ⟨some ⟨true⟩⟩, true, false, none⟩)], false⟩
        (fun _ => true)).2.2, pollingCycleRuns m = true := by
  decide

/-- C4: while a provisioning run's per-serial lock is held, a second
`provision_camera` call for the same serial fails immediately with the
already-in-progress error, leaves the credential store untouched, and
starts no provisioning step (highest step reached is 0). -/
theorem claim_C4_second_provision_fails_fast (locks : List String) (env : ProvEnv)
    (serial : String) (store : CredStore) (h : serial ∈ locks) :
    provisionCamera locks env serial store = (.error ⟨0, .alreadyInProgress⟩, store, 0) := by
  simp [provisionCamera, h]

/-- Witness for C4 at a concrete held lock. -/
theorem claim_C4_witness :
    provisionCamera ["C3461"]
      ⟨none, true, true, true, true, true, none, none, true, none, none, none, none, none, true⟩
      "C3461" [] = (.error ⟨0, .alreadyInProgress⟩, [], 0) :=
  claim_C4_second_provision_fails_fast _ _ _ _ (by decide)

/-- C6: `start_recording_all` and `stop_recording_all` return a result map
whose key set is exactly the set of cameras whose `connected` flag was
true at the start of the call, whatever the per-camera write outcomes. -/
theorem claim_C6_result_keys_eq_connected (mgr : Manager) (writeOk : String → Bool) :
    (startRecordingAll mgr writeOk).1.map Prod.fst
      = (mgr.cameras.filter (fun p => p.2.connected)).map Prod.fst ∧
    (stopRecordingAll mgr writeOk).1.map Prod.fst
      = (mgr.cameras.filter (fun p => p.2.connected)).map Prod.fst := by
  constructor
  · simp only [startRecordingAll, connectedCams]
    split
    · rename_i h
      rw [List.isEmpty_iff] at h
      simp [h]
    · exact shutterAllGo_keys _ _ _ _
  · simp only [stopRecordingAll, connectedCams]
    split
    · rename_i h
      rw [List.isEmpty_iff] at h
      simp [h]
    · exact shutterAllGo_keys _ _ _ _

/-- C7: a session whose open_gopro handle still exists but whose Bleak
client reports the radio link down: `update_connection_status` returns
false and leaves both `connected` and `recording` cleared. -/
theorem claim_C7_stale_handle_clears_recording (cam : Camera) (g : GoproH) (b : BleakH)
    (h1 : cam.gopro = some g) (h2 : g.handle = some b) (h3 : b.is_connected = false) :
    (updateConnectionStatus cam).1 = false ∧
    (updateConnectionStatus cam).2.connected = false ∧
    (updateConnectionStatus cam).2.recording = false := by
  simp [updateConnectionStatus, h1, h2, isBleConnected, h3]

/-- Witness for C7: a stale-handle camera that believed it was connected
and recording. -/
theorem claim_C7_witness :
    (updateConnectionStatus ⟨some ⟨some ⟨false⟩⟩, true, true, some 12⟩).1 = false ∧
    (updateConnectionStatus ⟨some ⟨some ⟨false⟩⟩, true, true, some 12⟩).2.connected = false ∧
    (updateConnectionStatus ⟨some ⟨some ⟨false⟩⟩, true, true, some 12⟩).2.recording = false :=
  claim_C7_stale_handle_clears_recording _ ⟨some ⟨false⟩⟩ ⟨false⟩ rfl rfl rfl

/-- C8: a continuation frame (header bit 7 set) arriving on a
characteristic with no open reassembly buffer is dropped: the handler
returns the state unchanged, so nothing is enqueued anywhere and every
other characteristic's buffer and queue are untouched. -/
theorem claim_C8_orphan_continuation_dropped (uuid : String) (b : Nat) (rest : List Nat)
    (st : NotifState) (hbuf : List.lookup uuid st.buffers = none)
    (hcont : b &&& 0x80 ≠ 0) :
    notifHandler uuid (b :: rest) st = st := by
  simp [notifHandler, hcont, hbuf]

/-- Witness for C8: an orphaned continuation on characteristic `0073`
while `0077` has an open buffer and both have live queues. -/
theorem claim_C8_witness :
    notifHandler "0073" [0x80, 5, 6]
      ⟨[("0077", (4, [1]))], [("0073", [[9]]), ("0077", [])]⟩
      = ⟨[("0077", (4, [1]))], [("0073", [[9]]), ("0077", [])]⟩ :=
  claim_C8_orphan_continuation_dropped _ _ _ _ (by decide) (by decide)

/-- C9: `probe_ble_alive` is advisory: whatever the probe outcome
(success, error, timeout or exception), the session's `connected` and
`recording` flags are exactly what they were before the probe. -/
theorem claim_C9_probe_does_not_flip_state (cam : Camera) (o : ProbeOutcome) :
    (probeBleAlive cam o).2.connected = cam.connected ∧
    (probeBleAlive cam o).2.recording = cam.recording := by
  cases o <;> simp only [probeBleAlive] <;> split <;> simp

/-- C10: once `stop_recording` passes its initial connection check, every
exit path — clean stop, thread-join timeout treated as success, or both
attempts raising — leaves the session marked not recording with the start
timestamp cleared. -/
theorem claim_C10_stop_never_leaves_recording (cam : Camera) (a1 a2 : AttemptOutcome)
    (h : passesConnCheck (updateConnectionStatus cam).2 = true) :
    (stopRecording cam a1 a2).2.recording = false ∧
    (stopRecording cam a1 a2).2.recordingStartTime = none := by
  cases a1 <;> cases a2 <;> simp [stopRecording, h]

/-- Witness for C10: a live recording camera whose both stop attempts
raise still ends up not-recording. -/
theorem claim_C10_witness :
    (stopRecording ⟨some ⟨some ⟨true⟩⟩, true, true, some 3⟩ .raised .raised).2.recording = false ∧
    (stopRecording ⟨some ⟨some ⟨true⟩⟩, true, true, some 3⟩ .raised .raised).2.recordingStartTime
      = none :=
  claim_C10_stop_never_leaves_recording _ .raised .raised (by decide)

/-- The continuation run never exceeds the list length. -/
theorem contRunGo_le_length (l : List Nat) : contRunGo l ≤ l.length := by
  induction l with
  | nil => simp [contRunGo]
  | cons b rest ih =>
    simp only [contRunGo, List.length_cons]
    split <;> omega

/-- Behaviour of the `_decode_varint` loop, generalised over the shift
accumulator (`shift = 7 * m` after `m` continuation bytes): with `c` the
number of leading continuation bytes, the loop raises the too-long error
after `10 - m` further continuation bytes, raises the truncated error when
the bytes run out first, and otherwise returns with the offset just past
the terminating byte. -/
theorem decodeVarintGo_spec (rem : List Nat) (offset result m : Nat) (hm : m ≤ 9) :
    (10 - m ≤ contRunGo rem →
      decodeVarintGo rem offset result (7 * m) = .error (.tooLong (offset + (10 - m)))) ∧
    (contRunGo rem < 10 - m → contRunGo rem = rem.length →
      decodeVarintGo rem offset result (7 * m) = .error (.truncated (offset + rem.length))) ∧
    (contRunGo rem < 10 - m → contRunGo rem < rem.length →
      ∃ v, decodeVarintGo rem offset result (7 * m) = .ok (v, offset + contRunGo rem + 1)) := by
  induction rem generalizing offset result m with
  | nil =>
    refine ⟨fun h => ?_, fun _ _ => ?_, fun _ h => ?_⟩
    · simp [contRunGo] at h; omega
    · simp [decodeVarintGo]
    · simp [contRunGo] at h
  | cons byte rest ih =>
    by_cases hb : byte &&& 0x80 = 0
    · have hc : contRunGo (byte :: rest) = 0 := by simp [contRunGo, hb]
      refine ⟨fun h => ?_, fun _ hlen => ?_, fun _ _ => ?_⟩
      · rw [hc] at h; omega
      · rw [hc] at hlen; simp at hlen
      · exact ⟨result ||| ((byte &&& 0x7F) <<< (7 * m)), by simp [decodeVarintGo, hb, hc]⟩
    · have hc : contRunGo (byte :: rest) = contRunGo rest + 1 := by simp [contRunGo, hb]
      by_cases hm9 : m = 9
      · have hgo : decodeVarintGo (byte :: rest) offset result (7 * m)
            = .error (.tooLong (offset + 1)) := by
          subst hm9; simp [decodeVarintGo, hb]
        refine ⟨fun h => ?_, fun h => ?_, fun h => ?_⟩
        · rw [hgo]; subst hm9; norm_num
        · rw [hc] at h; omega
        · rw [hc] at h; omega
      · have hgo : decodeVarintGo (byte :: rest) offset result (7 * m)
            = decodeVarintGo rest (offset + 1) (result ||| ((byte &&& 0x7F) <<< (7 * m)))
                (7 * m + 7) := by
          have : ¬ (7 * m + 7 > 63) := by omega
          simp [decodeVarintGo, hb, this]
        have h7 : 7 * m + 7 = 7 * (m + 1) := by ring
        have ihm := ih (offset + 1) (result ||| ((byte &&& 0x7F) <<< (7 * m))) (m + 1)
          (by omega)
        refine ⟨fun h => ?_, fun h hlen => ?_, fun h hlen => ?_⟩
        · rw [hc] at h
          have := ihm.1 (by omega)
          rw [hgo, h7, this]
          have : offset + 1 + (10 - (m + 1)) = offset + (10 - m) := by omega
          rw [this]
        · rw [hc] at h
          rw [hc] at hlen
          simp only [List.length_cons] at hlen
          have := ihm.2.1 (by omega) (by omega)
          rw [hgo, h7, this]
          have : offset + 1 + rest.length = offset + (rest.length + 1) := by omega
          rw [this]
          simp
        · rw [hc] at h
          rw [hc] at hlen
          simp only [List.length_cons] at hlen
          obtain ⟨v, hv⟩ := ihm.2.2 (by omega) (by omega)
          refine ⟨v, ?_⟩
          rw [hgo, h7, hv, hc]
          congr 2
          omega

instance : DecidableEq (Except VarintErr (Nat × Nat)) := fun a b => by
  cases a <;> cases b <;> first
    | (rename_i x y
       exact match decEq x y with
         | isTrue h => isTrue (by rw [h])
         | isFalse h => isFalse (by intro hc; cases hc; exact h rfl))
    | exact isFalse (by intro hc; cases hc)

/-- C5 counterexample: the ten-byte buffer `[0x80]*9 ++ [0x01]` is a
varint that does not terminate within 9 bytes (its first nine bytes all
carry the continuation bit), yet `_decode_varint` returns
`(2^63, 10)` instead of raising the value-too-large error the claim
demands. -/
theorem claim_C5_counterexample :
    (∀ b ∈ (List.replicate 9 0x80 ++ [0x01]).take 9, b &&& 0x80 ≠ 0) ∧
    decodeVarint (List.replicate 9 0x80 ++ [0x01]) 0
      = .ok (9223372036854775808, 10) := by
  decide

/-- C5 amended: `_decode_varint` raises the value-too-large error exactly
when the varint does not terminate within **10** bytes (the first ten
bytes from the offset all carry the continuation bit, as in the 10-byte
all-continuation buffer); it raises the truncated error when the input
ends before a terminating byte with fewer than ten continuation bytes
seen; otherwise it returns the decoded value together with the offset
just past the terminating byte. -/
theorem claim_C5_varint_bounds (data : List Nat) (offset : Nat) :
    (10 ≤ contRun data offset →
      decodeVarint data offset = .error (.tooLong (offset + 10))) ∧
    (contRun data offset < 10 → data.length ≤ offset + contRun data offset →
      decodeVarint data offset = .error (.truncated (max offset data.length))) ∧
    (contRun data offset < 10 → offset + contRun data offset < data.length →
      ∃ v, decodeVarint data offset = .ok (v, offset + contRun data offset + 1)) := by
  have hspec := decodeVarintGo_spec (data.drop offset) offset 0 0 (by omega)
  have hlen : (data.drop offset).length = data.length - offset := List.length_drop ..
  have hle := contRunGo_le_length (data.drop offset)
  refine ⟨fun h => ?_, fun h hlen2 => ?_, fun h hlen2 => ?_⟩
  · exact hspec.1 (by simpa [contRun] using h)
  · have hgo := hspec.2.1 (by simpa [contRun] using h)
      (by rw [hlen]; rw [contRun] at *; omega)
    rw [decodeVarint, hgo, hlen]
    rw [contRun] at *
    have hmax : offset + (data.length - offset) = max offset data.length := by omega
    rw [hmax]
  · obtain ⟨v, hv⟩ := hspec.2.2 (by simpa [contRun] using h)
      (by rw [hlen]; rw [contRun] at *; omega)
    exact ⟨v, by rw [decodeVarint, hv, contRun]⟩

/-- Witness for the amended C5: a ten-byte all-continuation buffer raises
the value-too-large error at offset 10. -/
theorem claim_C5_witness :
    decodeVarint (List.replicate 10 0x80) 0 = .error (.tooLong 10) :=
  (claim_C5_varint_bounds (List.replicate 10 0x80) 0).1 (by decide)

/-- The two possible shapes of a provisioning run's outcome: an abort at
some step with the store untouched, or a run that reached the step-14
persist of the validated credential (after which only step 15 can still
fail). -/
def ProvShape (env : ProvEnv) (serial : String) (store : CredStore)
    (r : Except PErr Cred × CredStore × Nat) : Prop :=
  (∃ e, r = (.error e, store, e.step) ∧ e.step ≤ 14) ∨
  (∃ res last, r = (res, setA serial (assembleCred env) store, last)
    ∧ hasDot (assembleCred env).ip = true ∧ last = 15
    ∧ (res = .ok (assembleCred env) ∨ ∃ k, res = .error ⟨15, k⟩))

/-- Every provisioning run either aborts at some step with the credential
store untouched (and the abort step recorded), or reaches the step-14
persist: the store gains exactly the assembled credential — whose IP
passed the dot check — and only a step-15 disconnect problem can still
fail the run afterwards. -/
theorem runInner_shape (env : ProvEnv) (serial : String) (store : CredStore) :
    ProvShape env serial store (runInner env serial store) := by
  unfold runInner
  by_cases h1 : env.deadlineStep = some 1
  · rw [if_pos h1]; exact Or.inl ⟨⟨1, .timeout⟩, rfl, by decide⟩
  rw [if_neg h1]
  by_cases h2 : ¬env.deviceFound = true
  · rw [if_pos h2]; exact Or.inl ⟨⟨1, .deviceNotFound⟩, rfl, by decide⟩
  rw [if_neg h2]
  by_cases h3 : env.deadlineStep = some 2
  · rw [if_pos h3]; exact Or.inl ⟨⟨2, .timeout⟩, rfl, by decide⟩
  rw [if_neg h3]
  by_cases h4 : ¬env.connectOk = true
  · rw [if_pos h4]; exact Or.inl ⟨⟨2, .connectFailed⟩, rfl, by decide⟩
  rw [if_neg h4]
  by_cases h5 : env.deadlineStep = some 3
  · rw [if_pos h5]; exact Or.inl ⟨⟨3, .timeout⟩, rfl, by decide⟩
  rw [if_neg h5]
  by_cases h6 : ¬env.subscribeOk = true
  · rw [if_pos h6]; exact Or.inl ⟨⟨3, .subscribeFailed⟩, rfl, by decide⟩
  rw [if_neg h6]
  by_cases h7 : env.deadlineStep = some 4
  · rw [if_pos h7]; exact Or.inl ⟨⟨4, .timeout⟩, rfl, by decide⟩
  rw [if_neg h7]
  by_cases h8 : env.deadlineStep = some 5
  · rw [if_pos h8]; exact Or.inl ⟨⟨5, .timeout⟩, rfl, by decide⟩
  rw [if_neg h8]
  by_cases h9 : env.deadlineStep = some 6
  · rw [if_pos h9]; exact Or.inl ⟨⟨6, .timeout⟩, rfl, by decide⟩
  rw [if_neg h9]
  by_cases h10 : env.deadlineStep = some 7
  · rw [if_pos h10]; exact Or.inl ⟨⟨7, .timeout⟩, rfl, by decide⟩
  rw [if_neg h10]
  by_cases h11 : env.deadlineStep = some 8
  · rw [if_pos h11]; exact Or.inl ⟨⟨8, .timeout⟩, rfl, by decide⟩
  rw [if_neg h11]
  by_cases h12 : env.deadlineStep = some 9
  · rw [if_pos h12]; exact Or.inl ⟨⟨9, .timeout⟩, rfl, by decide⟩
  rw [if_neg h12]
  by_cases h13 : env.deadlineStep = some 10
  · rw [if_pos h13]; exact Or.inl ⟨⟨10, .timeout⟩, rfl, by decide⟩
  rw [if_neg h13]
  by_cases h14 : ¬env.createCertOk = true
  · rw [if_pos h14]; exact Or.inl ⟨⟨10, .createCertFailed⟩, rfl, by decide⟩
  rw [if_neg h14]
  by_cases h15 : env.deadlineStep = some 11
  · rw [if_pos h15]; exact Or.inl ⟨⟨11, .timeout⟩, rfl, by decide⟩
  rw [if_neg h15]
  by_cases h16 : ¬env.fetchCertOk = true
  · rw [if_pos h16]; exact Or.inl ⟨⟨11, .fetchCertFailed⟩, rfl, by decide⟩
  rw [if_neg h16]
  by_cases h17 : env.deadlineStep = some 12
  · rw [if_pos h17]; exact Or.inl ⟨⟨12, .timeout⟩, rfl, by decide⟩
  rw [if_neg h17]
  by_cases h18 : ¬env.fetchStatusOk = true
  · rw [if_pos h18]; exact Or.inl ⟨⟨12, .fetchStatusFailed⟩, rfl, by decide⟩
  rw [if_neg h18]
  by_cases h19 : resolveIp env = "" ∨ ¬hasDot (resolveIp env) = true
  · rw [if_pos h19]; exact Or.inl ⟨⟨12, .noValidIp⟩, rfl, by decide⟩
  rw [if_neg h19]
  have hdot : hasDot (resolveIp env) = true := by
    by_contra hd
    exact h19 (Or.inr hd)
  by_cases h20 : env.deadlineStep = some 13
  · rw [if_pos h20]; exact Or.inl ⟨⟨13, .timeout⟩, rfl, by decide⟩
  rw [if_neg h20]
  by_cases h21 : env.deadlineStep = some 14
  · rw [if_pos h21]; exact Or.inl ⟨⟨14, .timeout⟩, rfl, by decide⟩
  rw [if_neg h21]
  by_cases h22 : env.deadlineStep = some 15
  · rw [if_pos h22]
    exact Or.inr ⟨_, _, rfl, hdot, rfl, Or.inr ⟨.timeout, rfl⟩⟩
  rw [if_neg h22]
  by_cases h23 : ¬env.disconnectOk = true
  · rw [if_pos h23]
    exact Or.inr ⟨_, _, rfl, hdot, rfl, Or.inr ⟨.disconnectFailed, rfl⟩⟩
  rw [if_neg h23]
  exact Or.inr ⟨_, _, rfl, hdot, rfl, Or.inl rfl⟩

/-- C3: a provisioning run that fails for any reason before step 14 —
including the overall deadline firing, which surfaces as a timeout error —
leaves the persistent credential store exactly as it was; and the store
changes at all only when the run reached the step-14 persist (step index
≥ 14) with a credential whose IP passed validation, gaining exactly that
one entry for the serial. -/
theorem claim_C3_no_credential_on_early_failure (env : ProvEnv) (serial : String)
    (store : CredStore) :
    (∀ e, (runInner env serial store).1 = .error e → e.step ≤ 13 →
      (runInner env serial store).2.1 = store) ∧
    ((runInner env serial store).2.1 ≠ store →
      ∃ cred, (runInner env serial store).2.1 = setA serial cred store
        ∧ hasDot cred.ip = true ∧ 14 ≤ (runInner env serial store).2.2) := by
  have hshape := runInner_shape env serial store
  unfold ProvShape at hshape
  rcases hshape with ⟨e, heq, _⟩ | ⟨res, last, heq, hdot, hlast, hres⟩
  · exact ⟨fun _ _ _ => by rw [heq], fun hne => absurd (by rw [heq]) hne⟩
  · constructor
    · intro e he hstep
      rw [heq] at he
      simp only at he
      rcases hres with h | ⟨k, h⟩ <;> subst h
      · exact absurd he (by simp)
      · simp only [Except.error.injEq] at he
        rw [← he] at hstep
        simp at hstep
    · intro _
      refine ⟨assembleCred env, by rw [heq], hdot, ?_⟩
      rw [heq]
      simp [hlast]

/-- Witness for C3: a run whose certificate-creation step (step 10) fails
leaves a one-entry store untouched, and the reported error is step 10's. -/
theorem claim_C3_witness :
    (runInner
        ⟨none, true, true, true, false, true, none, none, true, none, none, none, none, none, true⟩
        "C0001" [("C9999", ⟨"10.0.0.7", "gopro", "pw", "", "aa:bb"⟩)]).1
      = .error ⟨10, .createCertFailed⟩ ∧
    (runInner
        ⟨none, true, true, true, false, true, none, none, true, none, none, none, none, none, true⟩
        "C0001" [("C9999", ⟨"10.0.0.7", "gopro", "pw", "", "aa:bb"⟩)]).2.1
      = [("C9999", ⟨"10.0.0.7", "gopro", "pw", "", "aa:bb"⟩)] :=
  ⟨by rfl, (claim_C3_no_credential_on_early_failure _ _ _).1 ⟨10, .createCertFailed⟩ (by rfl)
    (by decide)⟩

/-- `processFrames` consumes its frame list one packet at a time. -/
theorem processFrames_cons (u : String) (f : List Nat) (fs : List (List Nat))
    (st : NotifState) :
    processFrames u (f :: fs) st = processFrames u fs (notifHandler u f st) := rfl

/-- Processing the continuation packets of the fragmentation loop into an
open reassembly buffer that still expects more than the whole remaining
payload: every packet is appended and the buffer never completes, so the
delivery queues are untouched. -/
theorem processFrames_contPackets (u : String) (qs : List (String × List (List Nat)))
    (l : List Nat) (T : Nat) (data : List Nat)
    (h : data.length + l.length < T) :
    processFrames u (contPackets l) ⟨[(u, (T, data))], qs⟩
      = ⟨[(u, (T, data ++ l))], qs⟩ := by
  rw [contPackets]
  by_cases hl : l = []
  · subst hl; simp [processFrames]
  · rw [if_neg hl]
    have hstep : notifHandler u (0x80 :: l.take 19) ⟨[(u, (T, data))], qs⟩
        = ⟨[(u, (T, data ++ l.take 19))], qs⟩ := by
      have hlen : ¬T ≤ data.length + (19 ⊓ l.length) := by omega
      simp [notifHandler, List.lookup, hlen, setA]
    rw [processFrames_cons, hstep]
    have hrec := processFrames_contPackets u qs (l.drop 19) T (data ++ l.take 19)
      (by simp only [List.length_append, List.length_take, List.length_drop]; omega)
    rw [hrec, List.append_assoc, List.take_append_drop]
termination_by l.length
decreasing_by
  have : 0 < l.length :=
    Nat.pos_of_ne_zero (fun h0 => hl (List.eq_nil_of_length_eq_zero h0))
  simp [List.length_drop]
  omega

set_option maxRecDepth 20000 in
/-- C1: the round trip fails at the failing input of 8191 zero bytes
(within the claimed 0–20000 range).  The encoder emits the extended
first frame `[0x7F, 0xFF] ++ 18 bytes` — a 2-byte header holding
`8191 ||| 0x6000` — but the decoder parses a bits-6,5 header as a
*3-byte* header whose 16-bit length sits in bytes 1–2, so it opens a
buffer expecting `0xFF00 = 65280` bytes.  The 8190 payload bytes that
follow never complete it: after every frame is delivered the queue is
still empty (`some []`), whereas the claim demands exactly the original
payload (`some [List.replicate 8191 0]`). -/
theorem claim_C1_roundtrip_fails_at_8191 :
    (List.replicate 8191 (0 : Nat)).length ≤ 20000 ∧
    fragmentPayload (List.replicate 8191 (0 : Nat))
      = .ok (([0x7F, 0xFF] ++ List.replicate 18 0) :: contPackets (List.replicate 8173 0)) ∧
    List.lookup "resp"
      (processFrames "resp"
        (([0x7F, 0xFF] ++ List.replicate 18 0) :: contPackets (List.replicate 8173 0))
        ⟨[], [("resp", [])]⟩).queues = some ([] : List (List Nat)) ∧
    some ([] : List (List Nat)) ≠ some [List.replicate 8191 (0 : Nat)] := by
  have hne : some ([] : List (List Nat)) ≠ some [List.replicate 8191 (0 : Nat)] := by
    intro hc
    rw [Option.some.injEq] at hc
    exact List.noConfusion hc
  refine ⟨by rw [List.length_replicate]; norm_num, ?_, ?_, hne⟩
  · have h1 : toBytes2BE (8191 ||| 0x6000) = [0x7F, 0xFF] := by decide
    have h2 : List.take 18 (List.replicate 8191 (0 : Nat)) = List.replicate 18 0 := by
      rw [List.take_replicate]; norm_num
    have h3 : List.drop 18 (List.replicate 8191 (0 : Nat)) = List.replicate 8173 0 := by
      rw [List.drop_replicate]
    simp only [fragmentPayload, List.length_replicate]
    norm_num [h1, h2, h3]
  · have hfirst : notifHandler "resp" ([0x7F, 0xFF] ++ List.replicate 18 0)
        ⟨[], [("resp", [])]⟩
        = ⟨[("resp", (65280, List.replicate 17 0))], [("resp", [])]⟩ := by
      decide
    rw [processFrames_cons, hfirst,
      processFrames_contPackets "resp" _ _ 65280 _
        (by simp only [List.length_replicate]; norm_num)]
    rfl

end GoProControl
